import Mathlib

/-!
# Verification of the libopenssh core against its specification

Shallow embedding of the four source files (`kexecdhs.c`, `ssh-proxy.c`,
`ssh-keysign.c`) of the repository, together with proofs settling the
frozen claims about the ECDH server handshake, the proxy forwarding loop
and the keysign request validator.

Byte buffers are `List Nat` (each element < 256 where it matters);
machine integers are `Nat`/`Int` with explicit reductions; fallible C
calls are driven by explicit environment records describing the outcome
of each external call, so that every control path of the C code is a
value of the embedding.
-/

namespace OpenSSH

/-! ## Wire codec (RFC 4251 §5)

The codec itself lives outside `src/` (sshbuf / packet code); the
definitions below are modelled from the spec, §4.1: `string` is a
big-endian `uint32` length followed by that many bytes; `mpint` is a
two's-complement big-endian integer, positive values with the high bit
set get a leading zero byte, zero is the empty string. -/

/-- Big-endian 4-byte encoding of a 32-bit length. -/
def u32be (n : Nat) : List Nat :=
  [n / 2 ^ 24 % 256, n / 2 ^ 16 % 256, n / 2 ^ 8 % 256, n % 256]

/-- Modelled from the spec: SSH `string` wire encoding (§4.1): length prefix
then raw bytes. -/
def putString (s : List Nat) : List Nat :=
  u32be s.length ++ s

/-- Byte-extraction worker: structural recursion on a fuel bound so the
definition computes by reduction. -/
def natToBEAux : Nat → Nat → List Nat
  | 0, _ => []
  | _ + 1, 0 => []
  | fuel + 1, n + 1 => natToBEAux fuel ((n + 1) / 256) ++ [(n + 1) % 256]

/-- Minimal big-endian magnitude of a natural number (empty for zero);
`n` itself bounds the number of byte extractions. -/
def natToBE (n : Nat) : List Nat := natToBEAux n n

/-- Modelled from the spec: SSH `mpint` wire encoding (§4.1) of a
non-negative integer: zero is zero-length, and a leading magnitude byte
with the high bit set is prefixed with `0x00`. -/
def putMpint (n : Nat) : List Nat :=
  let m := natToBE n
  let m' := if 128 ≤ m.headI then 0 :: m else m
  if n = 0 then u32be 0 else u32be m'.length ++ m'

/-- Big-endian interpretation of a byte string as a non-negative integer,
as `BN_bin2bn` does. -/
def natFromBE (bs : List Nat) : Nat :=
  bs.foldl (fun acc b => acc * 256 + b) 0

/-! ## Supported KEX names and digest algorithms

`kex_ecdh_name_to_nid` lives in `kexecdh.c`, outside `src/`. -/

/-- Modelled from the spec: §6.2 maps exactly the three supported KEX
names to their curves; any other name is rejected (`-1`). The concrete
nid values stand for the three named curves. -/
def kex_ecdh_name_to_nid (name : String) : Int :=
  if name = "ecdh-sha2-nistp256" then 415
  else if name = "ecdh-sha2-nistp384" then 715
  else if name = "ecdh-sha2-nistp521" then 716
  else -1

/-- Modelled from the spec: §6.2 fixes the digest by curve name:
SHA-256 for nistp256, SHA-384 for nistp384, SHA-512 for nistp521. -/
def evpMdOfName (name : String) : String :=
  if name = "ecdh-sha2-nistp256" then "sha256"
  else if name = "ecdh-sha2-nistp384" then "sha384"
  else "sha512"

/-! ## Exchange hash (spec §4.3, call site `kexecdhs.c:145-156`)

`kex_ecdh_hash` itself lives in `kexecdh.c`, outside `src/`; its body is
modelled from spec §4.3. The argument order at the call site in
`input_kex_ecdh_init` is taken from the source. -/

/-- Canonical concatenation hashed for the exchange hash, spec §4.3:
eight fields, each wire-encoded, in this order. -/
def exchangeHashEnc (vC vS iC iS kS qC qS : List Nat) (K : Nat) : List Nat :=
  putString vC ++ putString vS ++ putString iC ++ putString iS ++
  putString kS ++ putString qC ++ putString qS ++ putMpint K

/-- Modelled from the spec: §4.3, `H = digest(alg, enc)` where `enc` is
`exchangeHashEnc` of the eight transcript fields. `digest` is the
digest primitive of §4.2, passed in explicitly. -/
def kex_ecdh_hash (digest : String → List Nat → List Nat) (alg : String)
    (vC vS iC iS kS qC qS : List Nat) (K : Nat) : List Nat :=
  digest alg (exchangeHashEnc vC vS iC iS kS qC qS K)

/-! ## The ECDH server handler `input_kex_ecdh_init` (kexecdhs.c:59-208)

Every fallible external call is resolved by a `KexEnv` field; the
function below mirrors the C control flow: each `goto out` runs the
cleanup epilogue, while the `fatal()` call on `sshkey_sign` failure
terminates the process without running it. -/

/-- Error results of the handler, after `err.h` as used in the source. -/
inductive SshErr where
  | success
  | invalid_argument
  | alloc_fail
  | libcrypto_error
  | key_type_mismatch
  | message_incomplete
  | decode_error
  | blob_error
  | hash_error
  | send_error
  deriving DecidableEq, Repr

/-- Outcome of one invocation: an ordinary return to the dispatcher, or
process termination through `fatal()`. -/
inductive KexOutcome where
  | ret (r : SshErr)
  | fatal (msg : String)
  deriving DecidableEq, Repr

/-- Environment: the message fields, the connection state on entry, and
the outcome of every external call the handler makes, in program order. -/
structure KexEnv where
  name : String
  clientVersion : List Nat
  serverVersion : List Nat
  peerKexinit : List Nat
  myKexinit : List Nat
  hostBlob : List Nat
  qC : List Nat
  qS : List Nat
  ecdhOut : List Nat
  sessionId : Option (List Nat)
  ecKeyNewOk : Bool
  genOk : Bool
  loadersPresent : Bool
  hostKeysOk : Bool
  pointNewOk : Bool
  decodeErr : Option SshErr
  validateOk : Bool
  mallocKbufOk : Bool
  bnNewOk : Bool
  ecdhOk : Bool
  bin2bnOk : Bool
  blobErr : Option SshErr
  hashErr : Option SshErr
  sessionIdMallocOk : Bool
  signOk : Bool
  sendErr : Option SshErr

/-- Observable trace of one invocation: which resources were allocated,
zeroized and released, which crypto operations ran, what was sent, and
the session id on exit. -/
structure KexTrace where
  outcome : KexOutcome
  kbufAlloc : Bool := false
  kbufZeroized : Bool := false
  kbufFreed : Bool := false
  secretAlloc : Bool := false
  secretClearFreed : Bool := false
  serverKeyAlloc : Bool := false
  serverKeyFreed : Bool := false
  blobAlloc : Bool := false
  blobFreed : Bool := false
  sigAlloc : Bool := false
  sigFreed : Bool := false
  keypairGenerated : Bool := false
  ecdhInvoked : Bool := false
  hashInvoked : Bool := false
  signInvoked : Bool := false
  disconnect : Option String := none
  replySent : Bool := false
  hashArg : Option (String × List Nat) := none
  hashH : Option (List Nat) := none
  sessionIdOut : Option (List Nat) := none
  deriving DecidableEq, Repr

/-- Mutable locals of the C function that the epilogue inspects. -/
structure KexLocals where
  kbufAlloc : Bool := false
  secretAlloc : Bool := false
  serverKeyAlloc : Bool := false
  blobAlloc : Bool := false
  sigAlloc : Bool := false
  keypairGenerated : Bool := false
  ecdhInvoked : Bool := false
  hashInvoked : Bool := false
  signInvoked : Bool := false
  disconnect : Option String := none
  replySent : Bool := false
  hashArg : Option (String × List Nat) := none
  hashH : Option (List Nat) := none
  sessionIdOut : Option (List Nat) := none

/-- The `out:` epilogue (kexecdhs.c:190-207): free the host-key blob,
`EC_KEY_free` the ephemeral key (which clears its private scalar),
`bzero`+`free` `kbuf`, `BN_clear_free` the shared secret, free the
signature, and return `r`. -/
def kexOut (r : SshErr) (l : KexLocals) : KexTrace :=
  { outcome := .ret r
    kbufAlloc := l.kbufAlloc
    kbufZeroized := l.kbufAlloc
    kbufFreed := l.kbufAlloc
    secretAlloc := l.secretAlloc
    secretClearFreed := l.secretAlloc
    serverKeyAlloc := l.serverKeyAlloc
    serverKeyFreed := l.serverKeyAlloc
    blobAlloc := l.blobAlloc
    blobFreed := l.blobAlloc
    sigAlloc := l.sigAlloc
    sigFreed := l.sigAlloc
    keypairGenerated := l.keypairGenerated
    ecdhInvoked := l.ecdhInvoked
    hashInvoked := l.hashInvoked
    signInvoked := l.signInvoked
    disconnect := l.disconnect
    replySent := l.replySent
    hashArg := l.hashArg
    hashH := l.hashH
    sessionIdOut := l.sessionIdOut }

/-- The `fatal()` exit (kexecdhs.c:173): the process terminates; the
epilogue does not run, so the locals are left exactly as they were. -/
def kexFatal (msg : String) (l : KexLocals) : KexTrace :=
  { outcome := .fatal msg
    kbufAlloc := l.kbufAlloc
    kbufZeroized := false
    kbufFreed := false
    secretAlloc := l.secretAlloc
    secretClearFreed := false
    serverKeyAlloc := l.serverKeyAlloc
    serverKeyFreed := false
    blobAlloc := l.blobAlloc
    blobFreed := false
    sigAlloc := l.sigAlloc
    sigFreed := false
    keypairGenerated := l.keypairGenerated
    ecdhInvoked := l.ecdhInvoked
    hashInvoked := l.hashInvoked
    signInvoked := l.signInvoked
    disconnect := l.disconnect
    replySent := l.replySent
    hashArg := l.hashArg
    hashH := l.hashH
    sessionIdOut := l.sessionIdOut }

/-- Reply emission and key derivation (kexecdhs.c:177-189):
`sshpkt_start/put/put/put/send`, then `kex_derive_keys`, `kex_finish`,
`r = 0`; a send error takes `goto out` without the reply counting as
sent. -/
def kexSend (e : KexEnv) (l : KexLocals) : KexTrace :=
  match e.sendErr with
  | some r => kexOut r l
  | none => kexOut .success { l with replySent := true }

/-- Signing of `H` (kexecdhs.c:170-173): an `sshkey_sign` failure calls
`fatal()`, terminating the process without the epilogue; on success the
signature is allocated and the reply is emitted. -/
def kexSign (e : KexEnv) (l : KexLocals) : KexTrace :=
  if ¬ e.signOk then kexFatal "kexdh_server: sshkey_sign failed"
    { l with signInvoked := true }
  else kexSend e { l with signInvoked := true, sigAlloc := true }

/-- Session-id installation (kexecdhs.c:159-168): only when
`kex->session_id == NULL` is it allocated and set to `H`; a failing
allocation takes `goto out`. -/
def kexSessionId (e : KexEnv) (l : KexLocals) (hash : List Nat) : KexTrace :=
  match e.sessionId with
  | none =>
    if ¬ e.sessionIdMallocOk then kexOut .alloc_fail l
    else kexSign e { l with sessionIdOut := some hash }
  | some _ => kexSign e l

/-- Exchange-hash computation (kexecdhs.c:142-157): `sshkey_to_blob`
already succeeded; `kex_ecdh_hash` is called on the digest fixed by the
curve name and the canonical encoding of the transcript, `K` being the
`BN_bin2bn` of the ECDH output. -/
def kexHash (digest : String → List Nat → List Nat) (e : KexEnv)
    (l : KexLocals) : KexTrace :=
  let K := natFromBE e.ecdhOut
  let enc := exchangeHashEnc e.clientVersion e.serverVersion e.peerKexinit
      e.myKexinit e.hostBlob e.qC e.qS K
  let l1 := { l with hashInvoked := true,
                     hashArg := some (evpMdOfName e.name, enc) }
  match e.hashErr with
  | some r => kexOut r l1
  | none =>
    let hash := kex_ecdh_hash digest (evpMdOfName e.name) e.clientVersion
        e.serverVersion e.peerKexinit e.myKexinit e.hostBlob e.qC e.qS K
    kexSessionId e { l1 with hashH := some hash } hash

/-- Shared-secret computation (kexecdhs.c:124-144): `malloc(klen)` and
`BN_new`, then `ECDH_compute_key` and `BN_bin2bn`, then
`sshkey_to_blob`; every failure takes `goto out`. -/
def kexSecret (digest : String → List Nat → List Nat) (e : KexEnv)
    (l : KexLocals) : KexTrace :=
  if ¬ e.mallocKbufOk then kexOut .alloc_fail l
  else
    let l1 := { l with kbufAlloc := true }
    if ¬ e.bnNewOk then kexOut .alloc_fail l1
    else
      let l2 := { l1 with secretAlloc := true, ecdhInvoked := true }
      if ¬ e.ecdhOk then kexOut .libcrypto_error l2
      else if ¬ e.bin2bnOk then kexOut .libcrypto_error l2
      else match e.blobErr with
        | some r => kexOut r l2
        | none => kexHash digest e { l2 with blobAlloc := true }

/-- `input_kex_ecdh_init` (kexecdhs.c:59-208): curve lookup, ephemeral
keypair generation, host-key loading, client-point decode and
validation, then the shared-secret/hash/sign/reply pipeline. `digest`
is the digest primitive used by `kex_ecdh_hash`. -/
def input_kex_ecdh_init (digest : String → List Nat → List Nat)
    (e : KexEnv) : KexTrace :=
  let l0 : KexLocals := { sessionIdOut := e.sessionId }
  -- curve_nid = kex_ecdh_name_to_nid(kex->name)
  if kex_ecdh_name_to_nid e.name = -1 then kexOut .invalid_argument l0
  -- server_key = EC_KEY_new_by_curve_name(curve_nid)
  else if ¬ e.ecKeyNewOk then kexOut .alloc_fail l0
  else
    let l1 := { l0 with serverKeyAlloc := true }
    -- EC_KEY_generate_key(server_key)
    if ¬ e.genOk then kexOut .libcrypto_error l1
    else
      let l2 := { l1 with keypairGenerated := true }
      -- kex->load_host_{public,private}_key presence, then both loads
      if ¬ e.loadersPresent then kexOut .invalid_argument l2
      else if ¬ e.hostKeysOk then kexOut .key_type_mismatch l2
      -- client_public = EC_POINT_new(group)
      else if ¬ e.pointNewOk then kexOut .alloc_fail l2
      else match e.decodeErr with
        -- sshpkt_get_ec / sshpkt_get_end
        | some r => kexOut r l2
        | none =>
          -- sshkey_ec_validate_public
          if ¬ e.validateOk then
            kexOut .message_incomplete
              { l2 with disconnect := some "invalid client public key" }
          else kexSecret digest e l2

/-! ## Proxy session teardown `session_close` (ssh-proxy.c:158-181)

The teardown is modelled as the list of resource actions it performs, in
program order, plus the (stale) contents the freed record still holds,
so that a second invocation on the same record can be examined. -/

/-- One resource-releasing action of `session_close`. Event tags:
0 = client.input, 1 = client.output, 2 = server.input, 3 = server.output;
engine tags: 0 = client, 1 = server. -/
inductive CloseAct where
  | closeFd (fd : Int)
  | evDel (tag : Nat)
  | freeEngine (tag : Nat)
  | unlink
  | freeRecord
  deriving DecidableEq, Repr

/-- The fields of `struct session` that `session_close` reads. -/
structure Session where
  clientFd : Int
  serverFd : Int
  connected : Bool
  clientSsh : Bool
  serverSsh : Bool
  deriving DecidableEq, Repr

/-- `session_close` (ssh-proxy.c:158-181): close the sockets that are not
`-1`; if connected, delete the four events, free the engines that exist
(nulling the pointers), and unlink from the session list; finally
`xfree` the record. The returned `Session` is the stale contents the
freed record still holds (`xfree` does not scrub them). -/
def session_close (s : Session) : List CloseAct × Session :=
  let closes :=
    (if s.clientFd ≠ -1 then [CloseAct.closeFd s.clientFd] else []) ++
    (if s.serverFd ≠ -1 then [CloseAct.closeFd s.serverFd] else [])
  let teardown :=
    if s.connected then
      [CloseAct.evDel 0, CloseAct.evDel 1, CloseAct.evDel 2, CloseAct.evDel 3] ++
      (if s.clientSsh then [CloseAct.freeEngine 0] else []) ++
      (if s.serverSsh then [CloseAct.freeEngine 1] else []) ++
      [CloseAct.unlink]
    else []
  (closes ++ teardown ++ [CloseAct.freeRecord],
   if s.connected then { s with clientSsh := false, serverSsh := false } else s)

/-- `true` exactly on socket-close actions. -/
def isCloseFd : CloseAct → Bool
  | .closeFd _ => true
  | _ => false

/-! ## Proxy session setup callbacks (ssh-proxy.c:183-255) -/

/-- Outcomes of the external calls `accept_cb` makes. -/
structure AcceptEnv where
  acceptFd : Option Int
  fcntlOk : Bool
  connectFd : Option Int
  deriving DecidableEq, Repr

/-- What one `accept_cb` invocation does to the process and the new
session. -/
inductive AcceptOutcome where
  | fatalExit (msg : String)
  | sessionFailed (closedFds : List Int)
  | pendingConnect (clientFd serverFd : Int)
  deriving DecidableEq, Repr

/-- `accept_cb` (ssh-proxy.c:183-220): an `accept(2)` failure calls
`fatal()` (terminating the process; the `goto fail` after it is dead
code); `fcntl` or `do_connect` failures take the `fail:` path, closing
only the new session's client socket and freeing its record. -/
def accept_cb (e : AcceptEnv) : AcceptOutcome :=
  match e.acceptFd with
  | none => .fatalExit "accept"
  | some cfd =>
    if ¬ e.fcntlOk then .sessionFailed [cfd]
    else match e.connectFd with
    | none => .sessionFailed [cfd]
    | some sfd => .pendingConnect cfd sfd

/-- Outcomes of the external calls `connect_cb` makes. -/
structure ConnectEnv where
  soerr : Bool
  addServerHostkeyOk : Bool
  addKnownHostkeyOk : Bool
  deriving DecidableEq, Repr

/-- What one `connect_cb` invocation does. -/
inductive ConnectOutcome where
  | fatalExit (msg : String)
  | sessionClosed
  | connected
  deriving DecidableEq, Repr

/-- `connect_cb` (ssh-proxy.c:222-255): a pending-connect error
(`SO_ERROR` nonzero) closes this one session via `session_close`; either
`ssh_add_hostkey` failure calls `fatal()`, terminating the process. -/
def connect_cb (e : ConnectEnv) : ConnectOutcome :=
  if e.soerr then .sessionClosed
  else if ¬ e.addServerHostkeyOk then .fatalExit "could not load server hostkey"
  else if ¬ e.addKnownHostkeyOk then .fatalExit "could not load client hostkey"
  else .connected

/-! ## Proxy packet forwarding (ssh-proxy.c:257-362)

The transport engine (C5) lives outside `src/`; per spec §4.5 it is
modelled at packet granularity: `ssh_packet_get` yields the next decoded
packet if one is available, `ssh_packet_put` enqueues a packet on the
other engine. A packet is a type byte and a payload. -/

/-- A decoded SSH packet: message type and payload. -/
abbrev Pkt := Nat × List Nat

/-- Forwarding state of one connected proxy session: each side's queue
of decoded-but-unforwarded packets, and the sequences already delivered
to each peer engine via `ssh_packet_put`. -/
structure FwdState where
  cIn : List Pkt
  sIn : List Pkt
  toS : List Pkt
  toC : List Pkt
  deriving DecidableEq, Repr

/-- `ssh_packet_fwd(client, server)` (ssh-proxy.c:257-285): one
`ssh_packet_get` on the client engine; if it yields a packet, one
`ssh_packet_put` to the server engine. At most one packet moves. -/
def fwdCS (st : FwdState) : FwdState :=
  match st.cIn with
  | [] => st
  | p :: rest => { st with cIn := rest, toS := st.toS ++ [p] }

/-- `ssh_packet_fwd(server, client)`: mirror image of `fwdCS`. -/
def fwdSC (st : FwdState) : FwdState :=
  match st.sIn with
  | [] => st
  | p :: rest => { st with sIn := rest, toC := st.toC ++ [p] }

/-- One event-loop delivery on a connected session: a readable event on
a side carries the packets its newly read bytes complete (zero or
more), a writable event moves no input bytes. -/
inductive PEv where
  | readC (ps : List Pkt)
  | readS (ps : List Pkt)
  | writeC
  | writeS
  deriving DecidableEq, Repr

/-- One callback invocation (`input_cb`, ssh-proxy.c:287-320, or
`output_cb`, ssh-proxy.c:322-362): append any newly decoded packets to
the reading side, then `ssh_packet_fwd(r, w)` followed by
`ssh_packet_fwd(w, r)`. -/
def pstep (st : FwdState) (ev : PEv) : FwdState :=
  match ev with
  | .readC ps => fwdSC (fwdCS { st with cIn := st.cIn ++ ps })
  | .readS ps => fwdCS (fwdSC { st with sIn := st.sIn ++ ps })
  | .writeC => fwdCS (fwdSC st)
  | .writeS => fwdSC (fwdCS st)

/-- Run a sequence of event deliveries. -/
def prun (st : FwdState) (evs : List PEv) : FwdState :=
  evs.foldl pstep st

/-- The packets the client side decodes during one event. -/
def evInC : PEv → List Pkt
  | .readC ps => ps
  | _ => []

/-- The packets the server side decodes during one event. -/
def evInS : PEv → List Pkt
  | .readS ps => ps
  | _ => []

/-- All packets the client side decodes over an event sequence, in
arrival order. -/
def arrivalsC (evs : List PEv) : List Pkt :=
  (evs.map evInC).flatten

/-- All packets the server side decodes over an event sequence, in
arrival order. -/
def arrivalsS (evs : List PEv) : List Pkt :=
  (evs.map evInS).flatten

/-- The empty forwarding state of a freshly connected session. -/
def fwdInit : FwdState := ⟨[], [], [], []⟩

/-! ## Keysign validator (ssh-keysign.c)

The `sshbuf` readers and key-blob helpers live outside `src/`; they are
modelled from spec §4.1 (codec), §3 (host-key types) and §6.1 (blob
format). -/

/-- Read one octet. -/
def getU8 : List Nat → Option (Nat × List Nat)
  | [] => none
  | b :: r => some (b, r)

/-- Read a big-endian `uint32`. -/
def getU32 : List Nat → Option (Nat × List Nat)
  | a :: b :: c :: d :: r => some (a * 2 ^ 24 + b * 2 ^ 16 + c * 2 ^ 8 + d, r)
  | _ => none

/-- Modelled from the spec: §4.1 `string` reader — `uint32` length, then
that many bytes; a length exceeding the remaining bytes is an error. -/
def getString (bs : List Nat) : Option (List Nat × List Nat) :=
  match getU32 bs with
  | none => none
  | some (len, r) => if len ≤ r.length then some (r.take len, r.drop len) else none

/-- A UTF-8 continuation byte. -/
def utf8Cont (b : Nat) : Bool := 128 ≤ b && b ≤ 191

/-- RFC 3629 well-formedness of a byte sequence. -/
def utf8Valid : List Nat → Bool
  | [] => true
  | b :: r =>
    if b ≤ 127 then utf8Valid r
    else if 194 ≤ b ∧ b ≤ 223 then
      match r with
      | c :: r' => utf8Cont c && utf8Valid r'
      | [] => false
    else if b = 224 then
      match r with
      | c1 :: c2 :: r' => (160 ≤ c1 && c1 ≤ 191) && utf8Cont c2 && utf8Valid r'
      | _ => false
    else if 225 ≤ b ∧ b ≤ 236 then
      match r with
      | c1 :: c2 :: r' => utf8Cont c1 && utf8Cont c2 && utf8Valid r'
      | _ => false
    else if b = 237 then
      match r with
      | c1 :: c2 :: r' => (128 ≤ c1 && c1 ≤ 159) && utf8Cont c2 && utf8Valid r'
      | _ => false
    else if 238 ≤ b ∧ b ≤ 239 then
      match r with
      | c1 :: c2 :: r' => utf8Cont c1 && utf8Cont c2 && utf8Valid r'
      | _ => false
    else if b = 240 then
      match r with
      | c1 :: c2 :: c3 :: r' =>
        (144 ≤ c1 && c1 ≤ 191) && utf8Cont c2 && utf8Cont c3 && utf8Valid r'
      | _ => false
    else if 241 ≤ b ∧ b ≤ 243 then
      match r with
      | c1 :: c2 :: c3 :: r' =>
        utf8Cont c1 && utf8Cont c2 && utf8Cont c3 && utf8Valid r'
      | _ => false
    else if b = 244 then
      match r with
      | c1 :: c2 :: c3 :: r' =>
        (128 ≤ c1 && c1 ≤ 143) && utf8Cont c2 && utf8Cont c3 && utf8Valid r'
      | _ => false
    else false

/-- Modelled from the spec: §4.1 cstring reader — a `string` that must be
valid UTF-8 with no embedded NUL. -/
def getCString (bs : List Nat) : Option (List Nat × List Nat) :=
  match getString bs with
  | none => none
  | some (s, r) => if 0 ∈ s ∨ utf8Valid s = false then none else some (s, r)

/-- `sshbuf_skip_string`: read and discard one `string`. -/
def skipString (bs : List Nat) : Option (List Nat) :=
  (getString bs).map (·.2)

/-- ASCII byte values of a literal. -/
def ascii (s : String) : List Nat := s.data.map Char.toNat

/-- Known host-key types (spec §3, host keys are RSA, DSA or ECDSA). -/
inductive KeyType where
  | rsa
  | dsa
  | ecdsa
  | unspec
  deriving DecidableEq, Repr

/-- Modelled from the spec: public-key algorithm names of the known key
types; anything else is `unspec`. -/
def sshkey_type_from_name (alg : List Nat) : KeyType :=
  if alg = ascii "ssh-rsa" then .rsa
  else if alg = ascii "ssh-dss" then .dsa
  else if alg = ascii "ecdsa-sha2-nistp256" ∨ alg = ascii "ecdsa-sha2-nistp384" ∨
      alg = ascii "ecdsa-sha2-nistp521" then .ecdsa
  else .unspec

/-- A parsed public key: its actual type and the raw blob. -/
structure SKey where
  ktype : KeyType
  blob : List Nat
  deriving DecidableEq, Repr

/-- Modelled from the spec: §6.1 — a key blob is `string alg || body…`;
parsing succeeds when the leading algorithm name is a known type, and
the key's actual type is that name's type. -/
def sshkey_from_blob (bs : List Nat) : Option SKey :=
  match getString bs with
  | none => none
  | some (alg, _) =>
    let t := sshkey_type_from_name alg
    if t = .unspec then none else some ⟨t, bs⟩

/-- ASCII `tolower` of one byte. -/
def lowerByte (b : Nat) : Nat := if 65 ≤ b ∧ b ≤ 90 then b + 32 else b

/-- ASCII `tolower` of a byte string. -/
def lowerBytes (s : List Nat) : List Nat := s.map lowerByte

/-- The client-host check of `valid_request` (ssh-keysign.c:120-129):
`strlen(host) == len - 1`, the last byte of `chost` is `'.'`, and the
first `len - 1` bytes compare equal case-insensitively. An empty
`chost` fails (in C the `size_t` subtraction wraps and the length test
fails). -/
def chostMatches (host chost : List Nat) : Bool :=
  if chost.length = 0 then false
  else
    host.length = chost.length - 1 &&
    chost.getLast? = some 46 &&
    lowerBytes host = lowerBytes (chost.take (chost.length - 1))

/-- The fields of the host-based-authentication signed-data structure
(spec §6.4), as `valid_request` reads them; the server-user string is
skipped by the source and not retained. -/
structure SignedData where
  sid : List Nat
  mtype : Nat
  service : List Nat
  method : List Nat
  pkalg : List Nat
  pkblob : List Nat
  chost : List Nat
  luser : List Nat
  deriving DecidableEq, Repr

/-- The sequence of reads `valid_request` performs on the signed-data
blob (ssh-keysign.c:74-134); any read failure is `fatal` in the source,
here `none`. Returns the remaining bytes alongside the fields. -/
def parseSignedData (bs : List Nat) : Option (SignedData × List Nat) := do
  let (sid, b1) ← getString bs
  let (ty, b2) ← getU8 b1
  let b3 ← skipString b2
  let (service, b4) ← getCString b3
  let (method, b5) ← getCString b4
  let (pkalg, b6) ← getCString b5
  let (pkblob, b7) ← getString b6
  let (chost, b8) ← getCString b7
  let (luser, b9) ← getCString b8
  pure (⟨sid, ty, service, method, pkalg, pkblob, chost, luser⟩, b9)

/-- The public-key checks of `valid_request` (ssh-keysign.c:104-118):
the algorithm name must map to a known type, the blob must parse, and
the parsed key's type must equal the name's type; the parsed key is
kept (the source keeps `key` even on a type mismatch). -/
def keyCheck (sd : SignedData) : Option SKey × Bool :=
  let pktype := sshkey_type_from_name sd.pkalg
  if pktype = .unspec then (none, true)
  else match sshkey_from_blob sd.pkblob with
    | none => (none, true)
    | some k => (some k, decide (k.ktype ≠ pktype))

/-- `valid_request` (ssh-keysign.c:57-153). `none` is the `fatal` exit
on a buffer error; `some none` is the accumulated-failure rejection
(return `-1`, covering any nonzero `fail` count); `some (some k)` is
success with `*ret = k`. The checks mirror the source: session-id
length 20 or 32, message type 50, service, method, key algorithm/blob
agreement, client host with trailing dot, local user, and no trailing
bytes, all failures folded into one verdict. -/
def valid_request (pwName host data : List Nat) : Option (Option SKey) :=
  match parseSignedData data with
  | none => none
  | some (sd, rest) =>
    let kc := keyCheck sd
    let anyFail : Bool :=
      !(decide (sd.sid.length = 20) || decide (sd.sid.length = 32)) ||
      decide (sd.mtype ≠ 50) ||
      decide (sd.service ≠ ascii "ssh-connection") ||
      decide (sd.method ≠ ascii "hostbased") ||
      kc.2 ||
      !(chostMatches host sd.chost) ||
      decide (pwName ≠ sd.luser) ||
      decide (rest ≠ [])
    if anyFail then some none else some kc.1

/-- Terminal outcome of the keysign helper's request handling. -/
inductive KeysignOutcome where
  | fatalMsg (msg : String)
  | reply (sig : List Nat)
  deriving DecidableEq, Repr

/-- Observable trace of the helper: its outcome, whether the
`signed_data` field was ever read from the request, and whether a
signature was produced. -/
structure KeysignTrace where
  outcome : KeysignOutcome
  signedDataRead : Bool
  signatureProduced : Bool
  deriving DecidableEq, Repr

/-- Outcomes of the external calls the helper's `main` makes after
reading the request message. -/
structure KeysignEnv where
  pwName : List Nat
  localName : Option (List Nat)
  keyMatches : Bool
  signResult : Option (List Nat)
  deriving DecidableEq, Repr

/-- Two's-complement reading of a `uint32` as the signed `int` the
source stores it into (`(u_int *)&fd`, ssh-keysign.c:236). -/
def signedOfU32 (v : Nat) : Int :=
  if v < 2 ^ 31 then (v : Int) else (v : Int) - 2 ^ 32

/-- Request handling of `main` (ssh-keysign.c:232-271): version byte
must be 2; the `fd_index` read as a signed int must not be negative,
stdin or stdout (`fatal("bad fd")`); then the local name is resolved,
`signed_data` is read, validated, matched against the loaded host keys
and signed. -/
def keysign_handle (env : KeysignEnv) (body : List Nat) : KeysignTrace :=
  match getU8 body with
  | none => ⟨.fatalMsg "buffer error", false, false⟩
  | some (rver, b1) =>
    if rver ≠ 2 then ⟨.fatalMsg "bad version", false, false⟩
    else match getU32 b1 with
    | none => ⟨.fatalMsg "buffer error", false, false⟩
    | some (fdv, b2) =>
      let fd := signedOfU32 fdv
      if fd < 0 ∨ fd = 0 ∨ fd = 1 then ⟨.fatalMsg "bad fd", false, false⟩
      else match env.localName with
      | none => ⟨.fatalMsg "cannot get local name for fd", false, false⟩
      | some host =>
        match getString b2 with
        | none => ⟨.fatalMsg "buffer error", false, false⟩
        | some (data, _) =>
          match valid_request env.pwName host data with
          | none => ⟨.fatalMsg "buffer error", true, false⟩
          | some none => ⟨.fatalMsg "not a valid request", true, false⟩
          | some (some _) =>
            if ¬ env.keyMatches then ⟨.fatalMsg "no matching hostkey found", true, false⟩
            else match env.signResult with
            | none => ⟨.fatalMsg "sshkey_sign failed", true, false⟩
            | some sig => ⟨.reply sig, true, true⟩

/-! ## Concrete instances used by the witnesses -/

/-- A dummy digest primitive for concrete runs: returns its input. -/
def idDigest : String → List Nat → List Nat := fun _ bs => bs

/-- A fully successful environment for the ECDH handler. -/
def kexEnvOK : KexEnv :=
  { name := "ecdh-sha2-nistp256"
    clientVersion := [86, 67]
    serverVersion := [86, 83]
    peerKexinit := [20, 1]
    myKexinit := [20, 2]
    hostBlob := [75, 83]
    qC := [4, 1, 2]
    qS := [4, 3, 4]
    ecdhOut := [9, 200]
    sessionId := none
    ecKeyNewOk := true
    genOk := true
    loadersPresent := true
    hostKeysOk := true
    pointNewOk := true
    decodeErr := none
    validateOk := true
    mallocKbufOk := true
    bnNewOk := true
    ecdhOk := true
    bin2bnOk := true
    blobErr := none
    hashErr := none
    sessionIdMallocOk := true
    signOk := true
    sendErr := none }

/-- The embedded public-key blob of the concrete keysign request. -/
def reqKeyBlob : List Nat := putString (ascii "ssh-rsa") ++ [7]

/-- The key that blob parses to. -/
def reqKey : SKey := ⟨.rsa, reqKeyBlob⟩

/-- A concrete well-formed signed-data blob (spec §6.4) for host
`myhost` and local user `user`. -/
def reqData : List Nat :=
  putString (List.replicate 20 1) ++ [50] ++ putString [] ++
  putString (ascii "ssh-connection") ++ putString (ascii "hostbased") ++
  putString (ascii "ssh-rsa") ++ putString reqKeyBlob ++
  putString (ascii "myhost.") ++ putString (ascii "user")

/-- A benign environment for the keysign helper. -/
def keysignEnvOK : KeysignEnv :=
  { pwName := ascii "user"
    localName := some (ascii "myhost")
    keyMatches := true
    signResult := some [1, 2, 3] }

/-! ## Theorems -/

/-- A trace that ends in the `out:` epilogue or in the `fatal()` exit. -/
def isOutOrFatal (t : KexTrace) : Prop :=
  (∃ r l, t = kexOut r l) ∨ (∃ msg l, t = kexFatal msg l)

theorem kexSend_shape (e : KexEnv) (l : KexLocals) :
    isOutOrFatal (kexSend e l) := by
  unfold kexSend
  split
  · exact Or.inl ⟨_, _, rfl⟩
  · exact Or.inl ⟨_, _, rfl⟩

theorem kexSign_shape (e : KexEnv) (l : KexLocals) :
    isOutOrFatal (kexSign e l) := by
  unfold kexSign
  split
  · exact Or.inr ⟨_, _, rfl⟩
  · exact kexSend_shape e _

theorem kexSessionId_shape (e : KexEnv) (l : KexLocals) (hash : List Nat) :
    isOutOrFatal (kexSessionId e l hash) := by
  unfold kexSessionId
  split
  · split
    · exact Or.inl ⟨_, _, rfl⟩
    · exact kexSign_shape e _
  · exact kexSign_shape e _

theorem kexHash_shape (digest : String → List Nat → List Nat) (e : KexEnv)
    (l : KexLocals) : isOutOrFatal (kexHash digest e l) := by
  unfold kexHash
  simp only []
  split
  · exact Or.inl ⟨_, _, rfl⟩
  · exact kexSessionId_shape e _ _

theorem kexSecret_shape (digest : String → List Nat → List Nat) (e : KexEnv)
    (l : KexLocals) : isOutOrFatal (kexSecret digest e l) := by
  unfold kexSecret
  simp only []
  split
  · exact Or.inl ⟨_, _, rfl⟩
  · split
    · exact Or.inl ⟨_, _, rfl⟩
    · split
      · exact Or.inl ⟨_, _, rfl⟩
      · split
        · exact Or.inl ⟨_, _, rfl⟩
        · split
          · exact Or.inl ⟨_, _, rfl⟩
          · exact kexHash_shape digest e _

/-- Every run of the handler ends either in the `out:` epilogue or in
the `fatal()` exit. -/
theorem kex_run_shape (digest : String → List Nat → List Nat) (e : KexEnv) :
    isOutOrFatal (input_kex_ecdh_init digest e) := by
  unfold input_kex_ecdh_init
  simp only []
  split
  · exact Or.inl ⟨_, _, rfl⟩
  · split
    · exact Or.inl ⟨_, _, rfl⟩
    · split
      · exact Or.inl ⟨_, _, rfl⟩
      · split
        · exact Or.inl ⟨_, _, rfl⟩
        · split
          · exact Or.inl ⟨_, _, rfl⟩
          · split
            · exact Or.inl ⟨_, _, rfl⟩
            · split
              · exact Or.inl ⟨_, _, rfl⟩
              · split
                · exact Or.inl ⟨_, _, rfl⟩
                · exact kexSecret_shape digest e _

theorem kexSend_proj (e : KexEnv) (l : KexLocals) :
    (kexSend e l).sessionIdOut = l.sessionIdOut ∧
    (kexSend e l).hashH = l.hashH ∧
    (kexSend e l).hashArg = l.hashArg := by
  unfold kexSend
  split <;> exact ⟨rfl, rfl, rfl⟩

theorem kexSign_proj (e : KexEnv) (l : KexLocals) :
    (kexSign e l).sessionIdOut = l.sessionIdOut ∧
    (kexSign e l).hashH = l.hashH ∧
    (kexSign e l).hashArg = l.hashArg := by
  unfold kexSign
  split
  · exact ⟨rfl, rfl, rfl⟩
  · exact kexSend_proj e _

theorem kexSessionId_some (e : KexEnv) (l : KexLocals) (hash sid : List Nat)
    (h : e.sessionId = some sid) :
    (kexSessionId e l hash).sessionIdOut = l.sessionIdOut := by
  unfold kexSessionId
  rw [h]
  exact (kexSign_proj e l).1

theorem kexHash_some (digest : String → List Nat → List Nat) (e : KexEnv)
    (l : KexLocals) (sid : List Nat) (h : e.sessionId = some sid) :
    (kexHash digest e l).sessionIdOut = l.sessionIdOut := by
  unfold kexHash
  simp only []
  split
  · rfl
  · rw [kexSessionId_some e _ _ sid h]

theorem kexSecret_some (digest : String → List Nat → List Nat) (e : KexEnv)
    (l : KexLocals) (sid : List Nat) (h : e.sessionId = some sid) :
    (kexSecret digest e l).sessionIdOut = l.sessionIdOut := by
  unfold kexSecret
  simp only []
  split
  · rfl
  · split
    · rfl
    · split
      · rfl
      · split
        · rfl
        · split
          · rfl
          · rw [kexHash_some digest e _ sid h]

theorem kexSessionId_none (e : KexEnv) (l : KexLocals) (hash : List Nat)
    (h : e.sessionId = none) :
    ((kexSessionId e l hash).sessionIdOut = l.sessionIdOut ∨
      (kexSessionId e l hash).sessionIdOut = some hash) ∧
    (kexSessionId e l hash).hashH = l.hashH := by
  unfold kexSessionId
  rw [h]
  by_cases hm : e.sessionIdMallocOk = true
  · rw [if_neg (by simp [hm])]
    exact ⟨Or.inr ((kexSign_proj e _).1), (kexSign_proj e _).2.1⟩
  · rw [if_pos hm]
    exact ⟨Or.inl rfl, rfl⟩

theorem kexHash_none (digest : String → List Nat → List Nat) (e : KexEnv)
    (l : KexLocals) (h : e.sessionId = none) :
    (kexHash digest e l).sessionIdOut = l.sessionIdOut ∨
    ((kexHash digest e l).sessionIdOut = (kexHash digest e l).hashH ∧
      (kexHash digest e l).hashH ≠ none) := by
  unfold kexHash
  simp only []
  split
  · exact Or.inl rfl
  · rcases kexSessionId_none e _ _ h with ⟨hs | hs, hh⟩
    · exact Or.inl hs
    · right
      rw [hs, hh]
      exact ⟨rfl, by simp⟩

theorem kexSecret_none (digest : String → List Nat → List Nat) (e : KexEnv)
    (l : KexLocals) (h : e.sessionId = none) :
    (kexSecret digest e l).sessionIdOut = l.sessionIdOut ∨
    ((kexSecret digest e l).sessionIdOut = (kexSecret digest e l).hashH ∧
      (kexSecret digest e l).hashH ≠ none) := by
  unfold kexSecret
  simp only []
  split
  · exact Or.inl rfl
  · split
    · exact Or.inl rfl
    · split
      · exact Or.inl rfl
      · split
        · exact Or.inl rfl
        · split
          · exact Or.inl rfl
          · exact kexHash_none digest e _ h

/-- C3: the session identifier is never overwritten — if `kex->session_id`
is already set on entry, every run of the handler leaves it unchanged;
if it is unset, it either stays unset (early exit) or is assigned
exactly the exchange hash `H` this run computed. -/
theorem kex_session_id_immutable (digest : String → List Nat → List Nat)
    (e : KexEnv) :
    (∀ sid, e.sessionId = some sid →
      (input_kex_ecdh_init digest e).sessionIdOut = some sid) ∧
    (e.sessionId = none →
      (input_kex_ecdh_init digest e).sessionIdOut = none ∨
      ((input_kex_ecdh_init digest e).sessionIdOut =
          (input_kex_ecdh_init digest e).hashH ∧
        (input_kex_ecdh_init digest e).hashH ≠ none)) := by
  constructor
  · intro sid h
    unfold input_kex_ecdh_init
    simp only []
    split
    · simpa [kexOut] using h
    · split
      · simpa [kexOut] using h
      · split
        · simpa [kexOut] using h
        · split
          · simpa [kexOut] using h
          · split
            · simpa [kexOut] using h
            · split
              · simpa [kexOut] using h
              · split
                · simpa [kexOut] using h
                · split
                  · simpa [kexOut] using h
                  · rw [kexSecret_some digest e _ sid h]
                    simpa [kexOut] using h
  · intro h
    unfold input_kex_ecdh_init
    simp only []
    split
    · exact Or.inl (by simpa [kexOut] using h)
    · split
      · exact Or.inl (by simpa [kexOut] using h)
      · split
        · exact Or.inl (by simpa [kexOut] using h)
        · split
          · exact Or.inl (by simpa [kexOut] using h)
          · split
            · exact Or.inl (by simpa [kexOut] using h)
            · split
              · exact Or.inl (by simpa [kexOut] using h)
              · split
                · exact Or.inl (by simpa [kexOut] using h)
                · split
                  · exact Or.inl (by simpa [kexOut] using h)
                  · rcases kexSecret_none digest e
                      { serverKeyAlloc := true, keypairGenerated := true,
                        sessionIdOut := e.sessionId } h with hs | hs
                    · exact Or.inl (by simpa [kexOut] using hs.trans h)
                    · exact Or.inr hs

/-- Witness for `kex_session_id_immutable`: an already-set session id
survives a full successful handshake unchanged. -/
theorem kex_session_id_immutable_witness :
    (input_kex_ecdh_init idDigest
      { kexEnvOK with sessionId := some [1, 2, 3] }).sessionIdOut =
      some [1, 2, 3] := by
  exact (kex_session_id_immutable idDigest
    { kexEnvOK with sessionId := some [1, 2, 3] }).1 [1, 2, 3] rfl

/-- C9: if the negotiated KEX name is none of the three supported
`ecdh-sha2-nistp{256,384,521}` names, the handler returns
`invalid_argument` immediately: the trace is exactly the no-op trace, so
no keypair was generated and no ECDH computation, hashing or signing
took place. -/
theorem kex_unknown_name_no_crypto (digest : String → List Nat → List Nat)
    (e : KexEnv)
    (h1 : e.name ≠ "ecdh-sha2-nistp256")
    (h2 : e.name ≠ "ecdh-sha2-nistp384")
    (h3 : e.name ≠ "ecdh-sha2-nistp521") :
    input_kex_ecdh_init digest e =
      { outcome := .ret .invalid_argument, sessionIdOut := e.sessionId } := by
  unfold input_kex_ecdh_init
  rw [if_pos]
  · rfl
  · simp [kex_ecdh_name_to_nid, h1, h2, h3]

/-- Witness for `kex_unknown_name_no_crypto` at the spec's own test name
`ecdh-sha2-foo`. -/
theorem kex_unknown_name_no_crypto_witness :
    input_kex_ecdh_init idDigest { kexEnvOK with name := "ecdh-sha2-foo" } =
      { outcome := .ret .invalid_argument, sessionIdOut := none } :=
  kex_unknown_name_no_crypto idDigest
    { kexEnvOK with name := "ecdh-sha2-foo" }
    (by decide) (by decide) (by decide)

/-- C2: when the client point decodes but fails
`sshkey_ec_validate_public`, the handler sends the disconnect
"invalid client public key", never invokes `ECDH_compute_key` on the
point, sends no `KEX_ECDH_REPLY`, and returns
`SSH_ERR_MESSAGE_INCOMPLETE`. -/
theorem kex_invalid_point_disconnect (digest : String → List Nat → List Nat)
    (e : KexEnv)
    (hname : kex_ecdh_name_to_nid e.name ≠ -1)
    (h2 : e.ecKeyNewOk = true) (h3 : e.genOk = true)
    (h4 : e.loadersPresent = true) (h5 : e.hostKeysOk = true)
    (h6 : e.pointNewOk = true) (h7 : e.decodeErr = none)
    (h8 : e.validateOk = false) :
    (input_kex_ecdh_init digest e).disconnect =
      some "invalid client public key" ∧
    (input_kex_ecdh_init digest e).ecdhInvoked = false ∧
    (input_kex_ecdh_init digest e).replySent = false ∧
    (input_kex_ecdh_init digest e).outcome = .ret .message_incomplete := by
  unfold input_kex_ecdh_init
  simp [hname, h2, h3, h4, h5, h6, h7, h8, kexOut]

/-- Witness for `kex_invalid_point_disconnect`. -/
theorem kex_invalid_point_disconnect_witness :
    (input_kex_ecdh_init idDigest
      { kexEnvOK with validateOk := false }).disconnect =
        some "invalid client public key" ∧
    (input_kex_ecdh_init idDigest
      { kexEnvOK with validateOk := false }).ecdhInvoked = false ∧
    (input_kex_ecdh_init idDigest
      { kexEnvOK with validateOk := false }).replySent = false := by
  have h := kex_invalid_point_disconnect idDigest
    { kexEnvOK with validateOk := false }
    (by decide) rfl rfl rfl rfl rfl rfl rfl
  exact ⟨h.1, h.2.1, h.2.2.1⟩

/-- C1 counterexample: on the `sshkey_sign` failure path the handler
calls `fatal()` and the `out:` epilogue never runs — the process exits
with `kbuf` allocated but not zeroized, the shared-secret big integer
not cleared, and the ephemeral key not freed, contradicting the claim
that every exit path of the handler zeroizes and frees them. -/
theorem kex_sign_failure_skips_cleanup :
    (input_kex_ecdh_init idDigest { kexEnvOK with signOk := false }).outcome =
      .fatal "kexdh_server: sshkey_sign failed" ∧
    (input_kex_ecdh_init idDigest
      { kexEnvOK with signOk := false }).kbufAlloc = true ∧
    (input_kex_ecdh_init idDigest
      { kexEnvOK with signOk := false }).kbufZeroized = false ∧
    (input_kex_ecdh_init idDigest
      { kexEnvOK with signOk := false }).secretAlloc = true ∧
    (input_kex_ecdh_init idDigest
      { kexEnvOK with signOk := false }).secretClearFreed = false ∧
    (input_kex_ecdh_init idDigest
      { kexEnvOK with signOk := false }).serverKeyFreed = false := by
  decide

/-- C1 (amended): on every exit path through which the handler returns
to its caller — successful reply, decode error, validation failure,
allocation failure, and every crypto failure other than host-key
signing — whatever was allocated is released: `kbuf` is zeroized and
freed, the shared secret is cleared and freed, the ephemeral key is
freed (clearing its private scalar), and the host-key blob and
signature allocations are released. -/
theorem kex_cleanup_on_return (digest : String → List Nat → List Nat)
    (e : KexEnv) (r : SshErr)
    (h : (input_kex_ecdh_init digest e).outcome = .ret r) :
    ((input_kex_ecdh_init digest e).kbufAlloc = true →
      (input_kex_ecdh_init digest e).kbufZeroized = true ∧
      (input_kex_ecdh_init digest e).kbufFreed = true) ∧
    ((input_kex_ecdh_init digest e).secretAlloc = true →
      (input_kex_ecdh_init digest e).secretClearFreed = true) ∧
    ((input_kex_ecdh_init digest e).serverKeyAlloc = true →
      (input_kex_ecdh_init digest e).serverKeyFreed = true) ∧
    ((input_kex_ecdh_init digest e).blobAlloc = true →
      (input_kex_ecdh_init digest e).blobFreed = true) ∧
    ((input_kex_ecdh_init digest e).sigAlloc = true →
      (input_kex_ecdh_init digest e).sigFreed = true) := by
  rcases kex_run_shape digest e with ⟨r', l, hr⟩ | ⟨msg, l, hr⟩
  · rw [hr]
    simp [kexOut]
  · rw [hr] at h
    simp [kexFatal] at h

/-- Witness for `kex_cleanup_on_return`: the successful handshake
zeroizes and frees the secret material. -/
theorem kex_cleanup_on_return_witness :
    (input_kex_ecdh_init idDigest kexEnvOK).kbufZeroized = true ∧
    (input_kex_ecdh_init idDigest kexEnvOK).secretClearFreed = true :=
  ⟨((kex_cleanup_on_return idDigest kexEnvOK .success (by decide)).1
      (by decide)).1,
   (kex_cleanup_on_return idDigest kexEnvOK .success (by decide)).2.1
      (by decide)⟩

theorem kexSessionId_hashArg (e : KexEnv) (l : KexLocals) (hash : List Nat) :
    (kexSessionId e l hash).hashArg = l.hashArg ∧
    (kexSessionId e l hash).hashH = l.hashH := by
  unfold kexSessionId
  cases e.sessionId
  · by_cases hm : e.sessionIdMallocOk = true
    · rw [if_neg (by simp [hm])]
      exact ⟨(kexSign_proj e _).2.2, (kexSign_proj e _).2.1⟩
    · rw [if_pos hm]
      exact ⟨rfl, rfl⟩
  · exact ⟨(kexSign_proj e _).2.2, (kexSign_proj e _).2.1⟩

theorem kexHash_hashArg (digest : String → List Nat → List Nat) (e : KexEnv)
    (l : KexLocals) :
    (kexHash digest e l).hashArg =
      some (evpMdOfName e.name,
        exchangeHashEnc e.clientVersion e.serverVersion e.peerKexinit
          e.myKexinit e.hostBlob e.qC e.qS (natFromBE e.ecdhOut)) ∧
    (e.hashErr = none →
      (kexHash digest e l).hashH =
        some (kex_ecdh_hash digest (evpMdOfName e.name) e.clientVersion
          e.serverVersion e.peerKexinit e.myKexinit e.hostBlob e.qC e.qS
          (natFromBE e.ecdhOut))) := by
  unfold kexHash
  cases hh : e.hashErr
  · simp only []
    refine ⟨((kexSessionId_hashArg e _ _).1).trans rfl, fun _ => ?_⟩
    exact ((kexSessionId_hashArg e _ _).2).trans rfl
  · exact ⟨rfl, by intro hc; simp [hh] at hc⟩

theorem kexSecret_hashArg (digest : String → List Nat → List Nat)
    (e : KexEnv) (l : KexLocals)
    (h9 : e.mallocKbufOk = true) (h10 : e.bnNewOk = true)
    (h11 : e.ecdhOk = true) (h12 : e.bin2bnOk = true)
    (h13 : e.blobErr = none) :
    (kexSecret digest e l).hashArg =
      some (evpMdOfName e.name,
        exchangeHashEnc e.clientVersion e.serverVersion e.peerKexinit
          e.myKexinit e.hostBlob e.qC e.qS (natFromBE e.ecdhOut)) ∧
    (e.hashErr = none →
      (kexSecret digest e l).hashH =
        some (kex_ecdh_hash digest (evpMdOfName e.name) e.clientVersion
          e.serverVersion e.peerKexinit e.myKexinit e.hostBlob e.qC e.qS
          (natFromBE e.ecdhOut))) := by
  unfold kexSecret
  simp only [h9, h10, h11, h12, h13]
  exact kexHash_hashArg digest e _

/-- C4: whenever the handler reaches the exchange-hash computation, the
digest is invoked with the algorithm fixed by the negotiated curve name
and with exactly the canonical concatenation of client banner, server
banner, client KEXINIT, server KEXINIT, host-key blob, `Q_C`, `Q_S` and
the shared secret `K` as an `mpint`, in that order; the `H` the handler
keeps is that digest. -/
theorem kex_hash_input_canonical (digest : String → List Nat → List Nat)
    (e : KexEnv)
    (hname : kex_ecdh_name_to_nid e.name ≠ -1)
    (h2 : e.ecKeyNewOk = true) (h3 : e.genOk = true)
    (h4 : e.loadersPresent = true) (h5 : e.hostKeysOk = true)
    (h6 : e.pointNewOk = true) (h7 : e.decodeErr = none)
    (h8 : e.validateOk = true) (h9 : e.mallocKbufOk = true)
    (h10 : e.bnNewOk = true) (h11 : e.ecdhOk = true)
    (h12 : e.bin2bnOk = true) (h13 : e.blobErr = none) :
    (input_kex_ecdh_init digest e).hashArg =
      some (evpMdOfName e.name,
        exchangeHashEnc e.clientVersion e.serverVersion e.peerKexinit
          e.myKexinit e.hostBlob e.qC e.qS (natFromBE e.ecdhOut)) ∧
    (e.hashErr = none →
      (input_kex_ecdh_init digest e).hashH =
        some (kex_ecdh_hash digest (evpMdOfName e.name) e.clientVersion
          e.serverVersion e.peerKexinit e.myKexinit e.hostBlob e.qC e.qS
          (natFromBE e.ecdhOut))) := by
  unfold input_kex_ecdh_init
  simp only [hname, h2, h3, h4, h5, h6, h7, h8, Bool.not_true, if_neg,
    Bool.false_eq_true, not_false_eq_true, if_pos, ite_false, ite_true]
  exact kexSecret_hashArg digest e _ h9 h10 h11 h12 h13

/-- Witness for `kex_hash_input_canonical`: concrete transcript fields,
SHA-256 selected by `ecdh-sha2-nistp256`. -/
theorem kex_hash_input_canonical_witness :
    (input_kex_ecdh_init idDigest kexEnvOK).hashArg =
      some ("sha256",
        exchangeHashEnc [86, 67] [86, 83] [20, 1] [20, 2] [75, 83]
          [4, 1, 2] [4, 3, 4] (natFromBE [9, 200])) := by
  have h := (kex_hash_input_canonical idDigest kexEnvOK (by decide) rfl rfl rfl
    rfl rfl rfl rfl rfl rfl rfl rfl rfl).1
  rw [h]
  decide

/-- C5 counterexample: `session_close` on a connected session closes the
sockets *before* deregistering the events (the claimed fixed order puts
the closes third), and it frees the session record, so a second
invocation on the same record closes descriptor 5 again and frees the
record again — it is not idempotent. -/
theorem session_close_not_ordered_not_idempotent :
    (session_close ⟨5, 6, true, true, true⟩).1.head? =
      some (CloseAct.closeFd 5) ∧
    CloseAct.evDel 0 ∈ (session_close ⟨5, 6, true, true, true⟩).1 ∧
    ((session_close ⟨5, 6, true, true, true⟩).1 ++
      (session_close (session_close ⟨5, 6, true, true, true⟩).2).1).count
        (CloseAct.closeFd 5) = 2 ∧
    ((session_close ⟨5, 6, true, true, true⟩).1 ++
      (session_close (session_close ⟨5, 6, true, true, true⟩).2).1).count
        CloseAct.freeRecord = 2 := by
  decide

/-- C5 (amended): one `session_close` invocation releases each resource
exactly once (no action repeats), in the actual fixed order: socket
closes first, then — only for connected sessions — event deregistration,
engine frees and the unlink, and finally the record free; engines are
freed exactly when the session is connected and the engine exists.
`session_close` is not idempotent: it frees the record, so it must be
invoked at most once per session (see the counterexample). -/
theorem session_close_exact_once (s : Session)
    (hfd : s.clientFd ≠ s.serverFd) :
    ((session_close s).1.filter isCloseFd ++
      (session_close s).1.filter (fun a => ! isCloseFd a)) =
        (session_close s).1 ∧
    (session_close s).1.Nodup ∧
    (session_close s).1.count CloseAct.freeRecord = 1 ∧
    (CloseAct.unlink ∈ (session_close s).1 ↔ s.connected = true) ∧
    (CloseAct.freeEngine 0 ∈ (session_close s).1 ↔
      s.connected = true ∧ s.clientSsh = true) ∧
    (CloseAct.freeEngine 1 ∈ (session_close s).1 ↔
      s.connected = true ∧ s.serverSsh = true) ∧
    (∀ fd : Int, CloseAct.closeFd fd ∈ (session_close s).1 ↔
      ((fd = s.clientFd ∧ s.clientFd ≠ -1) ∨
        (fd = s.serverFd ∧ s.serverFd ≠ -1))) := by
  obtain ⟨cfd, sfd, conn, cssh, sssh⟩ := s
  cases conn <;> cases cssh <;> cases sssh <;>
    by_cases h1 : cfd = (-1 : Int) <;> by_cases h2 : sfd = (-1 : Int) <;>
    simp_all [session_close, isCloseFd]

/-- Witness for `session_close_exact_once` on a connected session with
distinct descriptors. -/
theorem session_close_exact_once_witness :
    (session_close ⟨5, 6, true, true, true⟩).1.Nodup ∧
    (session_close ⟨5, 6, true, true, true⟩).1.count CloseAct.freeRecord =
      1 :=
  ⟨(session_close_exact_once ⟨5, 6, true, true, true⟩ (by decide)).2.1,
   (session_close_exact_once ⟨5, 6, true, true, true⟩ (by decide)).2.2.1⟩

/-- C6 counterexample: an `accept(2)` failure in `accept_cb` and an
`ssh_add_hostkey` failure in `connect_cb` both call `fatal()`,
terminating the whole process rather than closing exactly the one
affected session. -/
theorem accept_connect_failures_fatal :
    accept_cb ⟨none, true, some 7⟩ = .fatalExit "accept" ∧
    connect_cb ⟨false, false, true⟩ =
      .fatalExit "could not load server hostkey" := by
  decide

/-- C6 (amended): a `fcntl` or `do_connect` failure while accepting, and
a pending-connect (`SO_ERROR`) failure while connecting, close exactly
the new session (its client socket is the only descriptor closed, the
record is freed); but `accept(2)` failures and `ssh_add_hostkey`
failures terminate the whole process via `fatal()`. -/
theorem single_session_failure_isolation (ea : AcceptEnv) (ec : ConnectEnv)
    (cfd : Int) (ha : ea.acceptFd = some cfd)
    (hfail : ea.fcntlOk = false ∨ ea.connectFd = none)
    (hs : ec.soerr = true) :
    accept_cb ea = .sessionFailed [cfd] ∧ connect_cb ec = .sessionClosed := by
  constructor
  · unfold accept_cb
    rw [ha]
    rcases hfail with hf | hf
    · simp [hf]
    · by_cases hb : ea.fcntlOk = true
      · simp [hb, hf]
      · simp [hb]
  · unfold connect_cb
    simp [hs]

/-- Witness for `single_session_failure_isolation`. -/
theorem single_session_failure_isolation_witness :
    accept_cb ⟨some 3, false, some 7⟩ = .sessionFailed [3] ∧
    connect_cb ⟨true, true, true⟩ = .sessionClosed :=
  single_session_failure_isolation ⟨some 3, false, some 7⟩ ⟨true, true, true⟩
    3 rfl (Or.inl rfl) rfl

/-- C7 counterexample: a readable event whose bytes complete two decoded
packets forwards only the first one — `ssh_packet_fwd` calls
`ssh_packet_get` once — so not every packet the engine can produce from
the buffered input is forwarded on that event, contradicting the claim. -/
theorem readable_event_forwards_at_most_one :
    (pstep fwdInit (.readC [(2, [97]), (3, [98])])).toS = [(2, [97])] ∧
    (pstep fwdInit (.readC [(2, [97]), (3, [98])])).cIn = [(3, [98])] := by
  decide

theorem fwdCS_chanC (st : FwdState) :
    (fwdCS st).toS ++ (fwdCS st).cIn = st.toS ++ st.cIn := by
  obtain ⟨ci, si, ts, tc⟩ := st
  cases ci <;> simp [fwdCS]

theorem fwdCS_other (st : FwdState) :
    (fwdCS st).sIn = st.sIn ∧ (fwdCS st).toC = st.toC := by
  obtain ⟨ci, si, ts, tc⟩ := st
  cases ci <;> simp [fwdCS]

theorem fwdSC_chanS (st : FwdState) :
    (fwdSC st).toC ++ (fwdSC st).sIn = st.toC ++ st.sIn := by
  obtain ⟨ci, si, ts, tc⟩ := st
  cases si <;> simp [fwdSC]

theorem fwdSC_other (st : FwdState) :
    (fwdSC st).cIn = st.cIn ∧ (fwdSC st).toS = st.toS := by
  obtain ⟨ci, si, ts, tc⟩ := st
  cases si <;> simp [fwdSC]

theorem pstep_chanC (st : FwdState) (ev : PEv) :
    (pstep st ev).toS ++ (pstep st ev).cIn =
      st.toS ++ st.cIn ++ evInC ev := by
  cases ev with
  | readC ps =>
    show (fwdSC (fwdCS _)).toS ++ (fwdSC (fwdCS _)).cIn = _
    rw [(fwdSC_other _).2, (fwdSC_other _).1, fwdCS_chanC]
    simp [evInC, List.append_assoc]
  | readS ps =>
    show (fwdCS (fwdSC _)).toS ++ (fwdCS (fwdSC _)).cIn = _
    rw [fwdCS_chanC, (fwdSC_other _).2, (fwdSC_other _).1]
    simp [evInC]
  | writeC =>
    show (fwdCS (fwdSC _)).toS ++ (fwdCS (fwdSC _)).cIn = _
    rw [fwdCS_chanC, (fwdSC_other _).2, (fwdSC_other _).1]
    simp [evInC]
  | writeS =>
    show (fwdSC (fwdCS _)).toS ++ (fwdSC (fwdCS _)).cIn = _
    rw [(fwdSC_other _).2, (fwdSC_other _).1, fwdCS_chanC]
    simp [evInC]

theorem pstep_chanS (st : FwdState) (ev : PEv) :
    (pstep st ev).toC ++ (pstep st ev).sIn =
      st.toC ++ st.sIn ++ evInS ev := by
  cases ev with
  | readC ps =>
    show (fwdSC (fwdCS _)).toC ++ (fwdSC (fwdCS _)).sIn = _
    rw [fwdSC_chanS, (fwdCS_other _).2, (fwdCS_other _).1]
    simp [evInS]
  | readS ps =>
    show (fwdCS (fwdSC _)).toC ++ (fwdCS (fwdSC _)).sIn = _
    rw [(fwdCS_other _).2, (fwdCS_other _).1, fwdSC_chanS]
    simp [evInS, List.append_assoc]
  | writeC =>
    show (fwdCS (fwdSC _)).toC ++ (fwdCS (fwdSC _)).sIn = _
    rw [(fwdCS_other _).2, (fwdCS_other _).1, fwdSC_chanS]
    simp [evInS]
  | writeS =>
    show (fwdSC (fwdCS _)).toC ++ (fwdSC (fwdCS _)).sIn = _
    rw [fwdSC_chanS, (fwdCS_other _).2, (fwdCS_other _).1]
    simp [evInS]

theorem arrivalsC_cons (ev : PEv) (evs : List PEv) :
    arrivalsC (ev :: evs) = evInC ev ++ arrivalsC evs := by
  simp [arrivalsC]

theorem arrivalsS_cons (ev : PEv) (evs : List PEv) :
    arrivalsS (ev :: evs) = evInS ev ++ arrivalsS evs := by
  simp [arrivalsS]

theorem prun_chanC (evs : List PEv) :
    ∀ st : FwdState,
      (prun st evs).toS ++ (prun st evs).cIn =
        st.toS ++ st.cIn ++ arrivalsC evs := by
  induction evs with
  | nil => intro st; simp [prun, arrivalsC]
  | cons ev evs ih =>
    intro st
    have h1 : prun st (ev :: evs) = prun (pstep st ev) evs := by
      simp [prun]
    rw [h1, ih (pstep st ev), pstep_chanC, arrivalsC_cons,
      List.append_assoc]

theorem prun_chanS (evs : List PEv) :
    ∀ st : FwdState,
      (prun st evs).toC ++ (prun st evs).sIn =
        st.toC ++ st.sIn ++ arrivalsS evs := by
  induction evs with
  | nil => intro st; simp [prun, arrivalsS]
  | cons ev evs ih =>
    intro st
    have h1 : prun st (ev :: evs) = prun (pstep st ev) evs := by
      simp [prun]
    rw [h1, ih (pstep st ev), pstep_chanS, arrivalsS_cons,
      List.append_assoc]

theorem pstep_write_tails (st : FwdState) :
    (pstep st .writeC).cIn = st.cIn.tail ∧
    (pstep st .writeC).sIn = st.sIn.tail := by
  obtain ⟨ci, si, ts, tc⟩ := st
  cases ci <;> cases si <;> simp [pstep, fwdCS, fwdSC]

theorem prun_drain (n : Nat) :
    ∀ st : FwdState, st.cIn.length ≤ n → st.sIn.length ≤ n →
      (prun st (List.replicate n .writeC)).cIn = [] ∧
      (prun st (List.replicate n .writeC)).sIn = [] := by
  induction n with
  | zero =>
    intro st hc hs
    simp only [List.replicate, prun, List.foldl]
    exact ⟨List.eq_nil_of_length_eq_zero (Nat.le_zero.mp hc),
      List.eq_nil_of_length_eq_zero (Nat.le_zero.mp hs)⟩
  | succ n ih =>
    intro st hc hs
    rw [List.replicate_succ]
    have h1 : prun st (.writeC :: List.replicate n .writeC) =
        prun (pstep st .writeC) (List.replicate n .writeC) := by
      simp [prun]
    rw [h1]
    refine ih _ ?_ ?_
    · rw [(pstep_write_tails st).1, List.length_tail]
      omega
    · rw [(pstep_write_tails st).2, List.length_tail]
      omega

theorem prun_append (st : FwdState) (a b : List PEv) :
    prun st (a ++ b) = prun (prun st a) b := by
  simp [prun, List.foldl_append]

theorem arrivalsC_append (a b : List PEv) :
    arrivalsC (a ++ b) = arrivalsC a ++ arrivalsC b := by
  simp [arrivalsC]

theorem arrivalsS_append (a b : List PEv) :
    arrivalsS (a ++ b) = arrivalsS a ++ arrivalsS b := by
  simp [arrivalsS]

theorem arrivalsC_replicate_write (n : Nat) :
    arrivalsC (List.replicate n .writeC) = [] := by
  induction n with
  | zero => simp [arrivalsC]
  | succ n ih => rw [List.replicate_succ, arrivalsC_cons, ih]; simp [evInC]

theorem arrivalsS_replicate_write (n : Nat) :
    arrivalsS (List.replicate n .writeC) = [] := by
  induction n with
  | zero => simp [arrivalsS]
  | succ n ih => rw [List.replicate_succ, arrivalsS_cons, ih]; simp [evInS]

/-- C7 (amended): under an arbitrary interleaving of readable and
writable events on a connected session, the packets delivered to each
peer are exactly a prefix of that direction's decoded packets in arrival
order — each packet is delivered at most once, none is reordered — and
the still-undelivered packets are the queue remainder; each
`ssh_packet_fwd` call moves at most one packet (see the counterexample),
so after enough further events (one per queued packet) every decoded
packet has been delivered exactly once. -/
theorem proxy_forwarding_exactly_once_in_order (evs : List PEv) :
    (prun fwdInit evs).toS ++ (prun fwdInit evs).cIn = arrivalsC evs ∧
    (prun fwdInit evs).toC ++ (prun fwdInit evs).sIn = arrivalsS evs ∧
    (prun fwdInit evs).toS <+: arrivalsC evs ∧
    (prun fwdInit evs).toC <+: arrivalsS evs ∧
    (∀ n, (prun fwdInit evs).cIn.length ≤ n →
      (prun fwdInit evs).sIn.length ≤ n →
      (prun fwdInit (evs ++ List.replicate n .writeC)).toS = arrivalsC evs ∧
      (prun fwdInit (evs ++ List.replicate n .writeC)).toC = arrivalsS evs) := by
  have hc := prun_chanC evs fwdInit
  have hs := prun_chanS evs fwdInit
  simp only [fwdInit, List.nil_append] at hc hs
  refine ⟨hc, hs, ⟨_, hc⟩, ⟨_, hs⟩, ?_⟩
  intro n hcn hsn
  have hd := prun_drain n (prun fwdInit evs) hcn hsn
  have hc2 := prun_chanC (evs ++ List.replicate n .writeC) fwdInit
  have hs2 := prun_chanS (evs ++ List.replicate n .writeC) fwdInit
  rw [prun_append] at hc2 hs2
  rw [hd.1] at hc2
  rw [hd.2] at hs2
  rw [arrivalsC_append, arrivalsC_replicate_write] at hc2
  rw [arrivalsS_append, arrivalsS_replicate_write] at hs2
  simp only [fwdInit, List.append_nil, List.nil_append] at hc2 hs2
  rw [prun_append]
  exact ⟨hc2, hs2⟩

/-- Witness for `proxy_forwarding_exactly_once_in_order`: two packets
arrive on the client side in one readable event; after two further
events both have been delivered to the server side, in order. -/
theorem proxy_forwarding_exactly_once_in_order_witness :
    (prun fwdInit ([PEv.readC [(2, [97]), (3, [98])]] ++
      List.replicate 2 PEv.writeC)).toS =
      arrivalsC [PEv.readC [(2, [97]), (3, [98])]] := by
  exact ((proxy_forwarding_exactly_once_in_order
    [PEv.readC [(2, [97]), (3, [98])]]).2.2.2.2 2 (by decide) (by decide)).1

theorem keyCheck_false_iff (sd : SignedData) (k : SKey) :
    ((keyCheck sd).2 = false ∧ (keyCheck sd).1 = some k) ↔
    (sshkey_type_from_name sd.pkalg ≠ .unspec ∧
      sshkey_from_blob sd.pkblob = some k ∧
      k.ktype = sshkey_type_from_name sd.pkalg) := by
  unfold keyCheck
  by_cases hpk : sshkey_type_from_name sd.pkalg = .unspec
  · simp [hpk]
  · cases hkb : sshkey_from_blob sd.pkblob with
    | none => simp [hpk, hkb]
    | some k0 =>
      simp only [hpk, if_neg, ite_false, hkb]
      constructor
      · rintro ⟨h1, h2⟩
        injection h2 with h2
        subst h2
        simp only [decide_eq_false_iff_not, not_not] at h1
        exact ⟨hpk, rfl, h1⟩
      · rintro ⟨-, h2, h3⟩
        injection h2 with h2
        subst h2
        simp [h3]

/-- C8: `valid_request` succeeds, yielding the parsed embedded key,
exactly when the signed-data blob parses and every check holds:
session-id length 20 or 32, message type `USERAUTH_REQUEST` (50),
service `ssh-connection`, method `hostbased`, a known key algorithm
matching the embedded blob's actual type, client host equal to the
local hostname (case-insensitively) plus a trailing dot, local user
equal to the password-file user name, and no bytes remaining. Any
combination of failed checks yields the same single rejection. -/
theorem valid_request_success_iff (pwName host data : List Nat) (k : SKey) :
    valid_request pwName host data = some (some k) ↔
    (∃ sd : SignedData, parseSignedData data = some (sd, []) ∧
      (sd.sid.length = 20 ∨ sd.sid.length = 32) ∧
      sd.mtype = 50 ∧
      sd.service = ascii "ssh-connection" ∧
      sd.method = ascii "hostbased" ∧
      sshkey_type_from_name sd.pkalg ≠ .unspec ∧
      sshkey_from_blob sd.pkblob = some k ∧
      k.ktype = sshkey_type_from_name sd.pkalg ∧
      chostMatches host sd.chost = true ∧
      pwName = sd.luser) := by
  unfold valid_request
  cases hp : parseSignedData data with
  | none => simp
  | some pr =>
    obtain ⟨sd, rest⟩ := pr
    simp only []
    constructor
    · intro h
      split_ifs at h with hfail
      · exact absurd h (by simp)
      · rw [Bool.not_eq_true] at hfail
        simp only [Bool.or_eq_false_iff, Bool.not_eq_false',
          Bool.or_eq_true, decide_eq_true_eq, decide_eq_false_iff_not,
          ne_eq, not_not] at hfail
        obtain ⟨⟨⟨⟨⟨⟨⟨hsid, hty⟩, hserv⟩, hmeth⟩, hkc⟩, hch⟩, hlu⟩,
          hrest⟩ := hfail
        rw [Option.some_inj] at h
        have hkey := (keyCheck_false_iff sd k).mp ⟨hkc, h⟩
        subst hrest
        exact ⟨sd, rfl, hsid, hty, hserv, hmeth, hkey.1, hkey.2.1,
          hkey.2.2, hch, hlu⟩
    · rintro ⟨sd', hp', hsid, hty, hserv, hmeth, hpk, hkb, hkt, hch, hlu⟩
      injection hp' with hp'
      injection hp' with hsd hrest
      subst hsd
      subst hrest
      have hkey : (keyCheck sd).2 = false ∧ (keyCheck sd).1 = some k := by
        apply (keyCheck_false_iff sd k).mpr
        exact ⟨hpk, hkb, hkt⟩
      rw [if_neg]
      · rw [hkey.2]
      · rcases hsid with hsid | hsid <;>
          simp [hsid, hty, hserv, hmeth, hkey.1, hch, hlu]

/-- Witness for `valid_request_success_iff`: a concrete fully valid
request is accepted and yields the embedded RSA key. -/
theorem valid_request_success_iff_witness :
    valid_request (ascii "user") (ascii "myhost") reqData =
      some (some reqKey) := by
  exact (valid_request_success_iff (ascii "user") (ascii "myhost") reqData
    reqKey).mpr
    ⟨⟨List.replicate 20 1, 50, ascii "ssh-connection", ascii "hostbased",
      ascii "ssh-rsa", reqKeyBlob, ascii "myhost.", ascii "user"⟩,
     by decide, by decide, by decide, by decide, by decide, by decide,
     by decide, by decide, by decide, by decide⟩

/-- C10: a keysign request (version byte 2 per §6.4) whose `fd_index`,
read as a signed 32-bit integer, is negative, 0 (stdin) or 1 (stdout)
makes the helper terminate fatally with "bad fd" before the
`signed_data` field is read, and no signature is produced. -/
theorem keysign_bad_fd_rejected (env : KeysignEnv) (body b1 b2 : List Nat)
    (fdv : Nat)
    (h1 : getU8 body = some (2, b1))
    (h2 : getU32 b1 = some (fdv, b2))
    (h3 : (2 ^ 31 ≤ fdv ∧ fdv < 2 ^ 32) ∨ fdv = 0 ∨ fdv = 1) :
    keysign_handle env body = ⟨.fatalMsg "bad fd", false, false⟩ := by
  have hneg : signedOfU32 fdv < 0 ∨ signedOfU32 fdv = 0 ∨
      signedOfU32 fdv = 1 := by
    unfold signedOfU32
    rcases h3 with ⟨ha, hb⟩ | h0 | h1'
    · left
      rw [if_neg (by omega)]
      have hb' : (fdv : Int) < 2 ^ 32 := by exact_mod_cast hb
      omega
    · subst h0
      right; left
      rw [if_pos (by norm_num)]
      norm_num
    · subst h1'
      right; right
      rw [if_pos (by norm_num)]
      norm_num
  unfold keysign_handle
  simp only [h1, h2]
  rw [if_neg (by simp)]
  rw [if_pos hneg]

/-- Witness for `keysign_bad_fd_rejected` at `fd_index = 1` (stdout). -/
theorem keysign_bad_fd_rejected_witness :
    keysign_handle keysignEnvOK [2, 0, 0, 0, 1] =
      ⟨.fatalMsg "bad fd", false, false⟩ :=
  keysign_bad_fd_rejected keysignEnvOK [2, 0, 0, 0, 1] [0, 0, 0, 1] [] 1
    rfl rfl (Or.inr (Or.inr rfl))


end OpenSSH
